import Mathlib

/-!
Verification of build/fbcode_builder_config.py from facebookexperimental/rust-shed.

The script defines one function, fbcode_builder_spec, which takes an external
builder object and returns a dict with the keys "depends_on" (a one-element
list holding the specs.rust_shed module) and "steps" (a one-element list
holding builder.step applied to the display name "Run rust-shed tests" and to
two builder.run actions over ShellQuoted command strings), and one module-level
dict, config, with the keys "github_project" and "fbcode_builder_spec".

Dicts are embedded as association lists to keep the keys and their order
observable.  The builder object is abstract: a record of its two methods, step
and run, over arbitrary result types S (steps) and A (actions).  A canonical
builder whose step and run are the free constructors makes the produced
structure fully observable.  Side effects are settled over an instrumented
variant that records, in evaluation order, every external call the function
body makes, and over a state-passing variant that threads the module state.
-/

/-- ShellQuoted marks a string as pre-quoted shell text.  It is the wrapper
type imported from the external shell_quoting module of the fbcode_builder
framework (not part of this repository): an opaque tagged string. -/
structure ShellQuoted where
  text : String
  deriving DecidableEq, Repr

/-- The dependency modules a configuration can declare.  This repository
declares exactly one, the imported specs.rust_shed module, an opaque
reference. -/
inductive Dep where
  | rust_shed
  deriving DecidableEq, Repr

/-- The builder object handed to fbcode_builder_spec by the external
framework: the two methods the script calls, over abstract result types S
(what builder.step returns) and A (what builder.run returns). -/
structure Builder (S A : Type) where
  step : String → List A → S
  run : ShellQuoted → A

/-- A value of the dict returned by fbcode_builder_spec: either a list of
declared dependency modules or a list of steps. -/
inductive SpecValue (S : Type) where
  | deps (ds : List Dep)
  | steps (ss : List S)

/-- The function fbcode_builder_spec of build/fbcode_builder_config.py,
returning the dict literal of the source with its two keys in source order. -/
def fbcode_builder_spec {S A : Type} (builder : Builder S A) :
    List (String × SpecValue S) :=
  [("depends_on", SpecValue.deps [Dep.rust_shed]),
   ("steps", SpecValue.steps
      [builder.step "Run rust-shed tests"
        [builder.run (ShellQuoted.mk "cargo test"),
         builder.run (ShellQuoted.mk "cargo doc --no-deps")]])]

/-- A value of the module-level config dict.  The source binds a string and a
function; the deps and steps shapes are included so that statements about
which shapes config does or does not hold are expressible. -/
inductive ConfigValue (S A : Type) where
  | str (s : String)
  | func (f : Builder S A → List (String × SpecValue S))
  | deps (ds : List Dep)
  | steps (ss : List S)

/-- The module-level dict config of build/fbcode_builder_config.py, with its
two keys in source order. -/
def config (S A : Type) : List (String × ConfigValue S A) :=
  [("github_project", ConfigValue.str "facebookexperimental/rust-shed"),
   ("fbcode_builder_spec", ConfigValue.func fbcode_builder_spec)]

/-- A canonical action: the run action recording the ShellQuoted command it
was given. -/
inductive Action0 where
  | run (cmd : ShellQuoted)
  deriving DecidableEq, Repr

/-- A canonical step: its display name and its ordered list of actions. -/
structure Step0 where
  name : String
  actions : List Action0
  deriving DecidableEq, Repr

/-- The canonical observing builder: step and run are the free constructors,
so the structure fbcode_builder_spec builds is kept intact. -/
def canonicalBuilder : Builder Step0 Action0 :=
  { step := Step0.mk, run := Action0.run }

/-- The dependency list of a spec dict: the value under the key depends_on. -/
def specDeps {S : Type} (c : List (String × SpecValue S)) : List Dep :=
  match c.lookup "depends_on" with
  | some (SpecValue.deps ds) => ds
  | _ => []

/-- The step list of a spec dict: the value under the key steps. -/
def specSteps {S : Type} (c : List (String × SpecValue S)) : List S :=
  match c.lookup "steps" with
  | some (SpecValue.steps ss) => ss
  | _ => []

/-- The ordered shell command strings of a canonical step. -/
def stepCommands (s : Step0) : List String :=
  s.actions.map fun a => match a with | Action0.run q => q.text

/-- Every shell command string occurring anywhere in a canonical spec dict,
in order: all ShellQuoted texts reachable from any value of the dict. -/
def specCommands (c : List (String × SpecValue Step0)) : List String :=
  c.flatMap fun kv =>
    match kv.2 with
    | SpecValue.deps _ => []
    | SpecValue.steps ss => ss.flatMap stepCommands

/-- An external operation the body of fbcode_builder_spec could invoke:
wrapping a string in ShellQuoted, calling builder.run, calling builder.step,
or executing a shell command (which the body never does; the external runner
does that later). -/
inductive Op where
  | shellQuote (s : String)
  | callRun (cmd : String)
  | callStep (stepName : String)
  | execShell (cmd : String)
  deriving DecidableEq, Repr

/-- Whether an operation executes a shell command. -/
def Op.isExec : Op → Bool
  | Op.execShell _ => true
  | _ => false

/-- Whether an operation is one of the builder method calls or the ShellQuoted
wrapping, the only external operations the spec allows the body. -/
def Op.isBuilderOrQuote : Op → Bool
  | Op.shellQuote _ => true
  | Op.callRun _ => true
  | Op.callStep _ => true
  | Op.execShell _ => false

/-- The command string an operation passes to builder.run, when it is such a
call. -/
def Op.runArg : Op → Option String
  | Op.callRun c => some c
  | _ => none

/-- The display name an operation passes to builder.step, when it is such a
call. -/
def Op.nameArg : Op → Option String
  | Op.callStep n => some n
  | _ => none

/-- A value together with the trace of external operations its computation
invoked, in evaluation order. -/
structure Traced (α : Type) where
  val : α
  trace : List Op

/-- Instrumented ShellQuoted construction: records the wrapping. -/
def shellQuotedT (s : String) : Traced ShellQuoted :=
  ⟨ShellQuoted.mk s, [Op.shellQuote s]⟩

/-- Instrumented builder.run call: records the command it is passed. -/
def runT {S A : Type} (b : Builder S A) (q : ShellQuoted) : Traced A :=
  ⟨b.run q, [Op.callRun q.text]⟩

/-- Instrumented builder.step call: records the display name it is passed. -/
def stepT {S A : Type} (b : Builder S A) (n : String) (acts : List A) :
    Traced S :=
  ⟨b.step n acts, [Op.callStep n]⟩

/-- The body of fbcode_builder_spec with every external call instrumented, in
the evaluation order of the source: the ShellQuoted wrappings and builder.run
calls for the two commands, left to right, then the builder.step call. -/
def fbcode_builder_spec_instr {S A : Type} (builder : Builder S A) :
    Traced (List (String × SpecValue S)) :=
  let q1 := shellQuotedT "cargo test"
  let r1 := runT builder q1.val
  let q2 := shellQuotedT "cargo doc --no-deps"
  let r2 := runT builder q2.val
  let st := stepT builder "Run rust-shed tests" [r1.val, r2.val]
  ⟨[("depends_on", SpecValue.deps [Dep.rust_shed]),
    ("steps", SpecValue.steps [st.val])],
   q1.trace ++ r1.trace ++ q2.trace ++ r2.trace ++ st.trace⟩

/-- Checks, scanning a trace left to right, that every command passed to
builder.run was wrapped in ShellQuoted earlier in the trace; seen holds the
strings wrapped so far. -/
def runsPreQuoted : List Op → List String → Bool
  | [], _ => true
  | Op.shellQuote s :: rest, seen => runsPreQuoted rest (s :: seen)
  | Op.callRun c :: rest, seen => seen.contains c && runsPreQuoted rest seen
  | _ :: rest, seen => runsPreQuoted rest seen

/-- The mutable state of the loaded module: the binding of its one
module-level variable, config. -/
structure ModuleState (S A : Type) where
  configVar : List (String × ConfigValue S A)

/-- Loading the module: the config dict literal is constructed once and bound;
nothing else in the module writes any state. -/
def loadModule (S A : Type) : ModuleState S A :=
  ⟨config S A⟩

/-- The state-passing translation of fbcode_builder_spec: its body contains no
assignment to any module variable, so the module state passes through
unchanged. -/
def fbcode_builder_spec_stateful {S A : Type} (builder : Builder S A)
    (st : ModuleState S A) :
    List (String × SpecValue S) × ModuleState S A :=
  (fbcode_builder_spec builder, st)

/-- A builder whose methods may fail, for settling that fbcode_builder_spec
raises only when a builder method raises. -/
structure FallibleBuilder (S A : Type) where
  step : String → List A → Except String S
  run : ShellQuoted → Except String A

/-- The body of fbcode_builder_spec over a fallible builder, propagating any
failure of a builder method call in evaluation order. -/
def fbcode_builder_spec_exc {S A : Type} (builder : FallibleBuilder S A) :
    Except String (List (String × SpecValue S)) := do
  let r1 ← builder.run (ShellQuoted.mk "cargo test")
  let r2 ← builder.run (ShellQuoted.mk "cargo doc --no-deps")
  let st ← builder.step "Run rust-shed tests" [r1, r2]
  pure [("depends_on", SpecValue.deps [Dep.rust_shed]),
        ("steps", SpecValue.steps [st])]

/-- A concrete fallible builder whose methods always succeed. -/
def okBuilder : FallibleBuilder Step0 Action0 :=
  { step := fun n acts => Except.ok (Step0.mk n acts)
  , run := fun q => Except.ok (Action0.run q) }

/-- C1 counterexample: the step list of the structure fbcode_builder_spec
returns has length one, not two — the source builds a single builder.step
holding both commands, so a structure with exactly two steps does not occur. -/
theorem spec_steps_not_two :
    (specSteps (fbcode_builder_spec canonicalBuilder)).length = 1 ∧
    ¬ (specSteps (fbcode_builder_spec canonicalBuilder)).length = 2 :=
  ⟨rfl, by decide⟩

/-- C1 (amended): for every builder, fbcode_builder_spec returns a structure
containing exactly the one declared dependency, the rust_shed module, and
exactly one step, built from the two shell invocations cargo test and then
cargo doc --no-deps, in that order; under the canonical builder that one step
has exactly the command list cargo test, cargo doc --no-deps. -/
theorem spec_single_step_two_commands {S A : Type} (builder : Builder S A) :
    specDeps (fbcode_builder_spec builder) = [Dep.rust_shed] ∧
    specSteps (fbcode_builder_spec builder) =
      [builder.step "Run rust-shed tests"
        [builder.run (ShellQuoted.mk "cargo test"),
         builder.run (ShellQuoted.mk "cargo doc --no-deps")]] ∧
    (specSteps (fbcode_builder_spec canonicalBuilder)).map stepCommands =
      [["cargo test", "cargo doc --no-deps"]] :=
  ⟨rfl, rfl, rfl⟩

/-- C2 counterexample: the single mapping handed to the external tool, config,
binds no key to a dependency list and no key to a step list — those lists live
only in the mapping the spec function returns, so config is not a single
mapping with keys for project identity, a dependency list and a step list. -/
theorem config_lacks_deps_and_steps_keys :
    (¬ ∃ k ds, (k, ConfigValue.deps (S := Step0) (A := Action0) ds) ∈
        config Step0 Action0) ∧
    (¬ ∃ k ss, (k, ConfigValue.steps (S := Step0) (A := Action0) ss) ∈
        config Step0 Action0) := by
  constructor <;> rintro ⟨k, v, h⟩ <;> simp [config] at h

/-- C2 (amended): the configuration handed to the external tool spans two
mappings: the top-level config mapping with a project-identity key and a key
binding the spec function, and the mapping that function returns, which has a
dependency-list key and a step-list key, each step having a display name and
an ordered list of shell command strings. -/
theorem config_contract_layout :
    (config Step0 Action0).map Prod.fst =
      ["github_project", "fbcode_builder_spec"] ∧
    (config Step0 Action0).lookup "github_project" =
      some (ConfigValue.str "facebookexperimental/rust-shed") ∧
    (config Step0 Action0).lookup "fbcode_builder_spec" =
      some (ConfigValue.func fbcode_builder_spec) ∧
    (fbcode_builder_spec canonicalBuilder).map Prod.fst =
      ["depends_on", "steps"] ∧
    specDeps (fbcode_builder_spec canonicalBuilder) = [Dep.rust_shed] ∧
    (specSteps (fbcode_builder_spec canonicalBuilder)).map
        (fun s => (s.name, stepCommands s)) =
      [("Run rust-shed tests", ["cargo test", "cargo doc --no-deps"])] :=
  ⟨rfl, rfl, rfl, rfl, rfl, rfl⟩

/-- C3: the only shell command strings occurring anywhere in the configuration
fbcode_builder_spec produces are exactly cargo test and cargo doc --no-deps,
each occurring once. -/
theorem spec_command_strings_exact :
    specCommands (fbcode_builder_spec canonicalBuilder) =
      ["cargo test", "cargo doc --no-deps"] ∧
    (specCommands (fbcode_builder_spec canonicalBuilder)).count "cargo test"
      = 1 ∧
    (specCommands (fbcode_builder_spec canonicalBuilder)).count
      "cargo doc --no-deps" = 1 :=
  ⟨rfl, rfl, rfl⟩

/-- C4: for every builder, the record fbcode_builder_spec returns has exactly
the two fields depends_on, a list of declared dependencies, and steps, an
ordered sequence of steps; under the canonical builder each step is a named
ordered sequence of shell command strings. -/
theorem spec_record_two_fields {S A : Type} (builder : Builder S A) :
    (fbcode_builder_spec builder).map Prod.fst = ["depends_on", "steps"] ∧
    (fbcode_builder_spec builder).lookup "depends_on" =
      some (SpecValue.deps [Dep.rust_shed]) ∧
    (specSteps (fbcode_builder_spec canonicalBuilder)).map
        (fun s => (s.name, stepCommands s)) =
      [("Run rust-shed tests", ["cargo test", "cargo doc --no-deps"])] :=
  ⟨rfl, rfl, rfl⟩

/-- C5: fbcode_builder_spec is deterministic — its result depends on nothing
but the step and run methods of the builder it is given: two builders whose
methods agree produce equal configuration structures. -/
theorem spec_deterministic {S A : Type} (b1 b2 : Builder S A)
    (hstep : b1.step = b2.step) (hrun : b1.run = b2.run) :
    fbcode_builder_spec b1 = fbcode_builder_spec b2 := by
  simp only [fbcode_builder_spec, hstep, hrun]

/-- C5 witness: the determinism theorem applied at the canonical builder. -/
theorem spec_deterministic_witness :
    fbcode_builder_spec canonicalBuilder = fbcode_builder_spec canonicalBuilder :=
  spec_deterministic canonicalBuilder canonicalBuilder rfl rfl

/-- C6: fbcode_builder_spec performs no side effects of its own: the
instrumented body computes the very structure the plain function returns, its
trace executes no shell command, every operation in the trace is a builder
method call or a ShellQuoted wrapping, and the module state is unchanged by a
call. -/
theorem spec_effect_free {S A : Type} (builder : Builder S A) :
    (fbcode_builder_spec_instr builder).val = fbcode_builder_spec builder ∧
    ((fbcode_builder_spec_instr builder).trace.all fun op => !op.isExec)
      = true ∧
    ((fbcode_builder_spec_instr builder).trace.all Op.isBuilderOrQuote)
      = true ∧
    (∀ st : ModuleState S A, (fbcode_builder_spec_stateful builder st).2 = st) :=
  ⟨rfl, rfl, rfl, fun _ => rfl⟩

/-- C7: for every builder whose run and step methods are total, fbcode_builder_spec
does not raise: the exception-propagating body returns ok. -/
theorem spec_total_no_raise {S A : Type} (builder : FallibleBuilder S A)
    (hrun : ∀ q, ∃ a, builder.run q = Except.ok a)
    (hstep : ∀ n acts, ∃ s, builder.step n acts = Except.ok s) :
    ∃ res, fbcode_builder_spec_exc builder = Except.ok res := by
  obtain ⟨a1, h1⟩ := hrun (ShellQuoted.mk "cargo test")
  obtain ⟨a2, h2⟩ := hrun (ShellQuoted.mk "cargo doc --no-deps")
  obtain ⟨s, h3⟩ := hstep "Run rust-shed tests" [a1, a2]
  exact ⟨[("depends_on", SpecValue.deps [Dep.rust_shed]),
          ("steps", SpecValue.steps [s])],
         by simp [fbcode_builder_spec_exc, h1, h2, h3, bind, Except.bind,
                  Functor.map, Except.map, pure, Except.pure]⟩

/-- C7 witness: the totality theorem applied at a concrete builder whose
methods always succeed. -/
theorem spec_total_no_raise_witness :
    ∃ res, fbcode_builder_spec_exc okBuilder = Except.ok res :=
  spec_total_no_raise okBuilder (fun q => ⟨Action0.run q, rfl⟩)
    (fun n acts => ⟨Step0.mk n acts, rfl⟩)

/-- C8: the config mapping is constructed once at module load time and no
operation of the module mutates it afterward: loading binds config to its
literal, and a call to fbcode_builder_spec passes the module state through
unchanged while its result is a function of the builder alone. -/
theorem config_immutable_after_load {S A : Type} (builder : Builder S A) :
    (loadModule S A).configVar = config S A ∧
    (∀ st : ModuleState S A, (fbcode_builder_spec_stateful builder st).2 = st) ∧
    (∀ st : ModuleState S A,
      (fbcode_builder_spec_stateful builder st).1 = fbcode_builder_spec builder) :=
  ⟨rfl, fun _ => rfl, fun _ => rfl⟩

/-- C9: for every builder the display name passed to builder.step is always
the string Run rust-shed tests (so under the canonical builder every step
carries that name), and the top-level config mapping has exactly the two keys
github_project, bound to facebookexperimental/rust-shed, and
fbcode_builder_spec, bound to the fbcode_builder_spec function. -/
theorem step_name_and_config_keys {S A : Type} (builder : Builder S A) :
    (fbcode_builder_spec_instr builder).trace.filterMap Op.nameArg =
      ["Run rust-shed tests"] ∧
    ((specSteps (fbcode_builder_spec canonicalBuilder)).all
        fun s => s.name == "Run rust-shed tests") = true ∧
    (config Step0 Action0).map Prod.fst =
      ["github_project", "fbcode_builder_spec"] ∧
    (config Step0 Action0).lookup "github_project" =
      some (ConfigValue.str "facebookexperimental/rust-shed") ∧
    (config Step0 Action0).lookup "fbcode_builder_spec" =
      some (ConfigValue.func fbcode_builder_spec) :=
  ⟨rfl, rfl, rfl, rfl, rfl⟩

/-- C10: for every builder, every command string passed to builder.run inside
fbcode_builder_spec is first wrapped in ShellQuoted — in the instrumented
trace each callRun is preceded by the ShellQuoted wrapping of its command —
and the commands so passed are exactly cargo test and cargo doc --no-deps. -/
theorem run_args_pre_quoted {S A : Type} (builder : Builder S A) :
    runsPreQuoted (fbcode_builder_spec_instr builder).trace [] = true ∧
    (fbcode_builder_spec_instr builder).trace.filterMap Op.runArg =
      ["cargo test", "cargo doc --no-deps"] :=
  ⟨rfl, rfl⟩
